import Mathlib

/-!
Shallow embedding of the maid-chan LINE chat-bot webhook service.

The repository has two revisions of the same single-file program:
`src/src/main.ts` (store key `SERVER_HOSTNAME`, no URL parsing, no port in the
formatted status) and `src/unnamed/part_000` (store key `serverURL`, the stored
value is parsed with `new URL`, the formatter renders a port). The embedding
below follows `src/unnamed/part_000`, the revision the specification describes
(URL validation with required host and port, a rendered port with default
25565); places where `src/src/main.ts` differs are noted where relevant.

External collaborators (LINE client, redis, minecraft-server-util, the WHATWG
URL parser, express, express-validator) are modelled as explicit parameters or
as small outcome types: a reply operation is the pair of reply token and text
that `linePromiseReply` would send, a redis `get` outcome is either an error or
a value that may or may not be a string, and the status query and URL parse are
function parameters returning `Option` (with `none` for a rejected promise,
resp. a thrown `TypeError`).
-/

namespace MaidChan

/-- The `commandType` enum of main.ts lines 29-33. -/
inductive CommandType
  | HELP
  | MCSTATUS
  | INVALID
deriving DecidableEq

/-- The `replyErrors` enum member `REDIS_FAIL_GET` (source line 36). -/
def REDIS_FAIL_GET : String := "redis_fail_get"

/-- The `replyErrors` enum member `REDIS_NOT_STRING` (source line 37). -/
def REDIS_NOT_STRING : String := "redis_not_string"

/-- The `replyErrors` enum member `MC_QUERY_FAIL` (source line 38). -/
def MC_QUERY_FAIL : String := "mc_query_fail"

/-- JavaScript `haystack.indexOf(needle)` on strings, as the index of the first
occurrence of `needle` in `haystack`, or `-1` when there is none. -/
def jsIndexOf (needle : List Char) : List Char → Int
  | [] => if needle <+: ([] : List Char) then 0 else -1
  | c :: rest =>
    if needle <+: c :: rest then 0
    else if jsIndexOf needle rest = -1 then -1 else jsIndexOf needle rest + 1

/-- The `extractCommand` arrow function (source lines 41-45): classify a
message text by `indexOf` containment of the literal command tokens. -/
def extractCommand (message : String) : CommandType :=
  if jsIndexOf "/help".data message.data ≠ -1 then CommandType.HELP
  else if jsIndexOf "/mcstatus".data message.data ≠ -1 then CommandType.MCSTATUS
  else CommandType.INVALID

/-- Every `jsIndexOf` result is `-1` or non-negative. -/
theorem jsIndexOf_neg_one_or_nonneg (needle : List Char) :
    ∀ l : List Char, jsIndexOf needle l = -1 ∨ 0 ≤ jsIndexOf needle l := by
  intro l
  induction l with
  | nil =>
    by_cases h : needle <+: ([] : List Char)
    · right
      simp [jsIndexOf, h]
    · left
      simp [jsIndexOf, h]
  | cons c rest ih =>
    by_cases h : needle <+: c :: rest
    · right
      simp [jsIndexOf, h]
    · rcases eq_or_ne (jsIndexOf needle rest) (-1) with h2 | h2
      · left
        simp [jsIndexOf, h, h2]
      · right
        rcases ih with h3 | h3
        · exact absurd h3 h2
        · simp only [jsIndexOf, if_neg h, if_neg h2]
          omega

/-- `jsIndexOf` reports an occurrence exactly when the needle is an infix
(a contiguous substring) of the haystack. -/
theorem jsIndexOf_ne_neg_one_iff (needle : List Char) :
    ∀ l : List Char, jsIndexOf needle l ≠ -1 ↔ needle <:+: l := by
  intro l
  induction l with
  | nil =>
    by_cases h : needle <+: ([] : List Char)
    · have hn : needle = [] := List.prefix_nil.mp h
      simp [jsIndexOf, h, hn, List.infix_nil]
    · have hn : needle ≠ [] := fun he => h (he ▸ List.prefix_nil.mpr rfl)
      simp [jsIndexOf, h, List.infix_nil, hn]
  | cons c rest ih =>
    by_cases h : needle <+: c :: rest
    · constructor
      · intro _
        exact h.isInfix
      · intro _
        simp [jsIndexOf, h]
    · have hiff : needle <:+: c :: rest ↔ needle <:+: rest := by
        rw [List.infix_cons_iff]
        exact or_iff_right h
      rcases eq_or_ne (jsIndexOf needle rest) (-1) with h2 | h2
      · have : ¬ needle <:+: rest := fun hc => (ih.mpr hc) h2
        simp [jsIndexOf, h, h2, hiff, this]
      · have hpos : 0 ≤ jsIndexOf needle rest := by
          rcases jsIndexOf_neg_one_or_nonneg needle rest with h3 | h3
          · exact absurd h3 h2
          · exact h3
        have : jsIndexOf needle (c :: rest) = jsIndexOf needle rest + 1 := by
          simp [jsIndexOf, h, h2]
        rw [this, hiff, ← ih]
        constructor
        · intro _
          exact h2
        · intro _
          omega

/-- C4: `extractCommand` is a pure total classifier by case-sensitive substring
containment: any text containing "/help" yields HELP; otherwise any text
containing "/mcstatus" yields MCSTATUS; every other text yields INVALID. -/
theorem c4_extractCommand_spec (m : String) :
    (extractCommand m = CommandType.HELP ↔ "/help".data <:+: m.data)
    ∧ (extractCommand m = CommandType.MCSTATUS ↔
        (¬ "/help".data <:+: m.data ∧ "/mcstatus".data <:+: m.data))
    ∧ (extractCommand m = CommandType.INVALID ↔
        (¬ "/help".data <:+: m.data ∧ ¬ "/mcstatus".data <:+: m.data)) := by
  have h1 := jsIndexOf_ne_neg_one_iff "/help".data m.data
  have h2 := jsIndexOf_ne_neg_one_iff "/mcstatus".data m.data
  by_cases hh : "/help".data <:+: m.data
  · have : extractCommand m = CommandType.HELP := by
      simp [extractCommand, h1.mpr hh]
    refine ⟨?_, ?_, ?_⟩ <;> simp [this, hh]
  · have hne : jsIndexOf "/help".data m.data = -1 := by
      by_contra hc
      exact hh (h1.mp hc)
    by_cases hm : "/mcstatus".data <:+: m.data
    · have : extractCommand m = CommandType.MCSTATUS := by
        simp [extractCommand, hne, h2.mpr hm]

      refine ⟨?_, ?_, ?_⟩ <;> simp [this, hh, hm]
    · have hne2 : jsIndexOf "/mcstatus".data m.data = -1 := by
        by_contra hc
        exact hm (h2.mp hc)
      have : extractCommand m = CommandType.INVALID := by
        simp [extractCommand, hne, hne2]
      refine ⟨?_, ?_, ?_⟩ <;> simp [this, hh, hm]

/-- Witness for C4: the concrete text "ab/helpcd" contains "/help" anywhere in
the string and is classified HELP. -/
theorem c4_extractCommand_spec_witness :
    extractCommand "ab/helpcd" = CommandType.HELP :=
  (c4_extractCommand_spec "ab/helpcd").1.mpr (by decide)

/-- One entry of `StatusResponse.samplePlayers` (minecraft-server-util);
only the `name` field is read by the formatter. -/
structure SamplePlayer where
  name : String
deriving DecidableEq

/-- The fields of minecraft-server-util's `StatusResponse` that
`formatServerResponse` reads. `samplePlayers` is `null` or an array in the
source, modelled as `Option`; the `description` is interpolated into the
template string, modelled as the resulting text. -/
structure StatusResponse where
  host : String
  version : String
  onlinePlayers : Nat
  maxPlayers : Nat
  samplePlayers : Option (List SamplePlayer)
  description : String
deriving DecidableEq

/-- The `formatServerResponse` arrow function of src/unnamed/part_000 lines
54-66: the template literal rendered character for character, with the two
ternaries translated to matches. `ngrokPort` is the optional second parameter
(`undefined` is `none`); JavaScript `array.toString()` is `join(",")`. -/
def formatServerResponse (srvResp : StatusResponse) (ngrokPort : Option String) : String :=
  "\n    Server address: " ++ srvResp.host ++ "\n\n"
  ++ "    Server port: " ++ (match ngrokPort with
      | none => "25565"
      | some p => p) ++ "\n"
  ++ "    Server version: " ++ srvResp.version ++ "\n\n"
  ++ "    Online players: " ++ toString srvResp.onlinePlayers ++ "/"
  ++ toString srvResp.maxPlayers ++ "\n"
  ++ "    Players: " ++ (match srvResp.samplePlayers with
      | none => "none"
      | some ps =>
        if ps.length < 1 then "none"
        else String.intercalate "," (ps.map SamplePlayer.name)) ++ "\n\n"
  ++ "    Server Description: " ++ srvResp.description ++ " \n    "

/-- The port component as the specification words it: the given port if
present, else the documented default 25565. -/
def portRendered : Option String → String
  | none => "25565"
  | some p => p

/-- The players component as the specification words it: comma-joined player
names, or the literal token "none" when the list is empty or absent. -/
def playersRendered : Option (List SamplePlayer) → String
  | none => "none"
  | some ps =>
    if ps.isEmpty then "none" else String.intercalate "," (ps.map SamplePlayer.name)

/-- C6: `formatServerResponse` deterministically renders the address, the port
(given port if present, else the default 25565), the version, the "online/max"
player count, the comma-joined player names or the literal "none" for an empty
or absent list, and the description; concretely an empty or absent player list
renders "none" and players "a","b" render "a,b". The function is total, so it
cannot throw on any snapshot. -/
theorem c6_formatServerResponse_spec (r : StatusResponse) (p : Option String) :
    formatServerResponse r p =
      "\n    Server address: " ++ r.host ++ "\n\n"
      ++ "    Server port: " ++ portRendered p ++ "\n"
      ++ "    Server version: " ++ r.version ++ "\n\n"
      ++ "    Online players: " ++ toString r.onlinePlayers ++ "/"
      ++ toString r.maxPlayers ++ "\n"
      ++ "    Players: " ++ playersRendered r.samplePlayers ++ "\n\n"
      ++ "    Server Description: " ++ r.description ++ " \n    "
    ∧ playersRendered none = "none"
    ∧ playersRendered (some []) = "none"
    ∧ playersRendered (some [⟨"a"⟩, ⟨"b"⟩]) = "a,b"
    ∧ portRendered none = "25565" := by
  refine ⟨?_, rfl, rfl, by decide, rfl⟩
  have hport : (match p with
      | none => "25565"
      | some q => q) = portRendered p := by
    cases p <;> rfl
  have hplayers : (match r.samplePlayers with
      | none => "none"
      | some ps =>
        if ps.length < 1 then "none"
        else String.intercalate "," (ps.map SamplePlayer.name))
      = playersRendered r.samplePlayers := by
    rcases hsp : r.samplePlayers with _ | ps
    · rfl
    · cases ps <;> simp [playersRendered]
  rw [formatServerResponse.eq_def, hport, hplayers]

/-- A LINE message payload inside a message event: a text message carrying
`text`, or any other message kind (image, sticker, video, ...), which the
inner `switch` of `handleEvent` does not handle. -/
inductive LineMessage
  | text (text : String)
  | nonText
deriving DecidableEq

/-- The fields of a LINE `MessageEvent` that `handleEvent` reads. -/
structure MessageEventData where
  message : LineMessage
  replyToken : String
deriving DecidableEq

/-- A webhook event: a message event, or any other event kind (follow, join,
...), which falls to the `default` branch of `handleEvent`. -/
inductive WebhookEvent
  | message (ev : MessageEventData)
  | other
deriving DecidableEq

/-- A reply operation: the pair that `linePromiseReply` (source lines 47-52)
sends — one text message against one reply token. -/
structure Reply where
  replyToken : String
  text : String
deriving DecidableEq

/-- The value the redis `get` callback receives in its `reply` parameter:
a string, or anything else (`null` when the key is absent, for which
`typeof reply` is not "string"). -/
inductive RedisValue
  | str (s : String)
  | nonString
deriving DecidableEq

/-- The outcome of the redis `get` call as seen by its callback `(err, reply)`:
`err` non-null, or success with a value. -/
inductive RedisGetOutcome
  | err
  | ok (v : RedisValue)
deriving DecidableEq

/-- What running the redis `get` callback produces: the replies it sends via
`linePromiseReply`, and whether it threw an uncaught synchronous exception
(`crashed`); either way its return value goes back to the redis client and is
discarded. -/
structure CallbackOutcome where
  sideReplies : List Reply
  crashed : Bool
deriving DecidableEq

/-- The host and port of a parsed WHATWG URL; `port` is a string, empty when
the URL carries no explicit port. -/
structure URLParts where
  hostname : String
  port : String
deriving DecidableEq

/-- The result of `handleEvent`'s mapping function for one event: `returned`
is the value the mapping function itself returns (`none` is JavaScript
`undefined`), `sideReplies` are replies sent only from inside the redis
callback, and `crashed` records an uncaught exception in that callback. -/
structure HandleResult where
  returned : Option Reply
  sideReplies : List Reply
  crashed : Bool
deriving DecidableEq

/-- The static help text (source lines 68-71). -/
def helpMessage : String :=
  "Command list:\n/help Display this message\n/mcstatus Check the status of my master\x27s Minecraft Server\n"

/-- The static reply for an unrecognised command (source line 99). -/
def invalidCommandMessage : String := "Invalid command. Type /help to get some help"

/-- The redis `get("serverURL", ...)` callback of src/unnamed/part_000 lines
83-96. `parse` models `new URL` (`none` when the constructor throws, which is
an uncaught exception inside the callback: no reply is sent and the handler
aborts); `mc` models the `status(hostname, {port})` promise (`none` for a
rejected promise, routed to `.catch`). On a resolved status the reply is the
formatted response with the URL's port string. -/
def statusCallback (parse : String → Option URLParts)
    (mc : URLParts → Option StatusResponse) (tok : String) :
    RedisGetOutcome → CallbackOutcome
  | RedisGetOutcome.err =>
    ⟨[⟨tok, "Server is offline. Code: " ++ REDIS_FAIL_GET⟩], false⟩
  | RedisGetOutcome.ok v =>
    match v with
    | RedisValue.str reply =>
      match parse reply with
      | none => ⟨[], true⟩
      | some u =>
        match mc u with
        | some serverResponse =>
          ⟨[⟨tok, formatServerResponse serverResponse (some u.port)⟩], false⟩
        | none => ⟨[⟨tok, "Server is offline. Code: " ++ MC_QUERY_FAIL⟩], false⟩
    | RedisValue.nonString =>
      ⟨[⟨tok, "Server is offline. Code: " ++ REDIS_NOT_STRING⟩], false⟩

/-- The mapping function inside `handleEvent` (src/unnamed/part_000 lines
74-105) applied to one webhook event. HELP and INVALID return the reply
promise directly. MCSTATUS calls `redisClient.get` with the callback and then
hits `break`, so the mapping function returns `undefined` (`returned = none`)
and whatever the callback produces is only a side effect. Non-text messages
fall through the inner `switch` and non-message events hit `default`, both
returning `undefined`. `rg` is the store-read outcome the callback observes. -/
def handleEventSingle (parse : String → Option URLParts)
    (mc : URLParts → Option StatusResponse) (rg : RedisGetOutcome) :
    WebhookEvent → HandleResult
  | WebhookEvent.message m =>
    match m.message with
    | LineMessage.text t =>
      match extractCommand t with
      | CommandType.HELP => ⟨some ⟨m.replyToken, helpMessage⟩, [], false⟩
      | CommandType.MCSTATUS =>
        let cb := statusCallback parse mc m.replyToken rg
        ⟨none, cb.sideReplies, cb.crashed⟩
      | CommandType.INVALID => ⟨some ⟨m.replyToken, invalidCommandMessage⟩, [], false⟩
    | LineMessage.nonText => ⟨none, [], false⟩
  | WebhookEvent.other => ⟨none, [], false⟩

/-- `handleEvent` (src/unnamed/part_000 lines 73-106): map the mapping
function over the body's events. -/
def handleEvent (parse : String → Option URLParts)
    (mc : URLParts → Option StatusResponse) (rg : RedisGetOutcome)
    (events : List WebhookEvent) : List HandleResult :=
  events.map (handleEventSingle parse mc rg)

/-- The webhook route's `handleEvent(req.body).filter(v => v !== undefined)`
(source line 110): the reply operations the dispatcher sees and awaits with
`Promise.all`, in input order. -/
def dispatch (parse : String → Option URLParts)
    (mc : URLParts → Option StatusResponse) (rg : RedisGetOutcome)
    (events : List WebhookEvent) : List Reply :=
  (handleEvent parse mc rg events).filterMap HandleResult.returned

/-- A parse function on which every string fails: `new URL` throws on inputs
such as "not a url", which have no scheme. -/
def noParse : String → Option URLParts := fun _ => none

/-- A status query that always fails (unreachable upstream server). -/
def noStatus : URLParts → Option StatusResponse := fun _ => none

/-- A concrete message event whose text is the STATUS command. -/
def statusEvent : WebhookEvent :=
  WebhookEvent.message ⟨LineMessage.text "/mcstatus", "tok1"⟩

/-- Whether an event is a message event. -/
def isMessageEvent : WebhookEvent → Bool
  | WebhookEvent.message _ => true
  | WebhookEvent.other => false

/-- Whether an event is a message event carrying a text message. -/
def isTextMessageEvent : WebhookEvent → Bool
  | WebhookEvent.message m =>
    match m.message with
    | LineMessage.text _ => true
    | LineMessage.nonText => false
  | WebhookEvent.other => false

/-- The reply operation that the mapping function itself returns for an event:
a help or invalid-command reply for a text message classified HELP or INVALID,
and nothing for a STATUS text (its reply exists only inside the store
callback), a non-text message, or a non-message event. -/
def immediateReply : WebhookEvent → Option Reply
  | WebhookEvent.message m =>
    match m.message with
    | LineMessage.text t =>
      match extractCommand t with
      | CommandType.HELP => some ⟨m.replyToken, helpMessage⟩
      | CommandType.MCSTATUS => none
      | CommandType.INVALID => some ⟨m.replyToken, invalidCommandMessage⟩
    | LineMessage.nonText => none
  | WebhookEvent.other => none

/-- A batch with two message events: a non-text message and a STATUS text. -/
def c2Events : List WebhookEvent :=
  [WebhookEvent.message ⟨LineMessage.nonText, "t1"⟩, statusEvent]

/-- The mapping function's returned value agrees with `immediateReply`. -/
theorem returned_eq_immediateReply (parse : String → Option URLParts)
    (mc : URLParts → Option StatusResponse) (rg : RedisGetOutcome)
    (e : WebhookEvent) :
    (handleEventSingle parse mc rg e).returned = immediateReply e := by
  cases e with
  | other => rfl
  | message m =>
    cases m with
    | mk msg tok =>
      cases msg with
      | nonText => rfl
      | text t =>
        cases h : extractCommand t <;>
          simp [handleEventSingle, immediateReply, h]

/-- The length of a filterMap is the count of inputs it keeps. -/
theorem length_filterMap_eq_countP (f : WebhookEvent → Option Reply)
    (l : List WebhookEvent) :
    (l.filterMap f).length = l.countP (fun e => (f e).isSome) := by
  induction l with
  | nil => rfl
  | cons e es ih =>
    rw [List.filterMap_cons, List.countP_cons]
    cases h : f e <;> simp [h, ih]

/-- C1 (divergence witness): for a STATUS message event the mapping function
returns `undefined` — the only reply is a side effect of the store callback —
so the dispatcher's filtered list contains no reply operation for the event,
and nothing is awaited. -/
theorem c1_status_reply_not_returned :
    handleEventSingle noParse noStatus RedisGetOutcome.err statusEvent
      = ⟨none, [⟨"tok1", "Server is offline. Code: redis_fail_get"⟩], false⟩
    ∧ dispatch noParse noStatus RedisGetOutcome.err [statusEvent] = [] :=
  ⟨rfl, rfl⟩

/-- C2 counterexample: a batch with two message events (a non-text message and
a STATUS text) yields zero reply operations from the dispatcher, not one per
message event. -/
theorem c2_counterexample :
    ¬ (dispatch noParse noStatus RedisGetOutcome.err c2Events).length
      = c2Events.countP isMessageEvent := by
  decide

/-- C2 amended: the dispatcher produces exactly one reply operation per
message event whose text command is HELP or INVALID, in input order, and none
for non-message events, non-text messages, or STATUS texts (whose reply is
never returned to the dispatcher). -/
theorem c2_amended (parse : String → Option URLParts)
    (mc : URLParts → Option StatusResponse) (rg : RedisGetOutcome)
    (events : List WebhookEvent) :
    dispatch parse mc rg events = events.filterMap immediateReply
    ∧ (dispatch parse mc rg events).length
      = events.countP (fun e => (immediateReply e).isSome) := by
  have key : dispatch parse mc rg events = events.filterMap immediateReply := by
    induction events with
    | nil => rfl
    | cons e es ih =>
      show ((handleEventSingle parse mc rg e :: es.map (handleEventSingle parse mc rg)).filterMap
          HandleResult.returned) = (e :: es).filterMap immediateReply
      rw [List.filterMap_cons, List.filterMap_cons,
        returned_eq_immediateReply parse mc rg e]
      cases immediateReply e <;> simp only [] <;> rw [← ih] <;> rfl
  exact ⟨key, by rw [key]; exact length_filterMap_eq_countP immediateReply events⟩

/-- C3: on the STATUS path every store or query failure replies with the exact
literal "Server is offline. Code: <code>": a store read error yields
redis_fail_get, a non-string (absent) value yields redis_not_string, a failed
status query against a parsed value yields mc_query_fail; a successful query
replies with the formatted response, and an unparseable string produces no
text at all (the callback throws) — so no other error text ever occurs. -/
theorem c3_status_reply_texts (parse : String → Option URLParts)
    (mc : URLParts → Option StatusResponse) (tok s : String) :
    statusCallback parse mc tok RedisGetOutcome.err
      = ⟨[⟨tok, "Server is offline. Code: redis_fail_get"⟩], false⟩
    ∧ statusCallback parse mc tok (RedisGetOutcome.ok RedisValue.nonString)
      = ⟨[⟨tok, "Server is offline. Code: redis_not_string"⟩], false⟩
    ∧ (parse s = none →
        statusCallback parse mc tok (RedisGetOutcome.ok (RedisValue.str s)) = ⟨[], true⟩)
    ∧ (∀ u, parse s = some u → mc u = none →
        statusCallback parse mc tok (RedisGetOutcome.ok (RedisValue.str s))
          = ⟨[⟨tok, "Server is offline. Code: mc_query_fail"⟩], false⟩)
    ∧ (∀ u r, parse s = some u → mc u = some r →
        statusCallback parse mc tok (RedisGetOutcome.ok (RedisValue.str s))
          = ⟨[⟨tok, formatServerResponse r (some u.port)⟩], false⟩) := by
  refine ⟨rfl, rfl, ?_, ?_, ?_⟩
  · intro h
    simp [statusCallback, h]
  · intro u hu hm
    simp only [statusCallback, hu, hm]
    rfl
  · intro u r hu hm
    simp only [statusCallback, hu, hm]

/-- Witness for C3: with a failing store read, the concrete reply text is the
redis_fail_get error literal. -/
theorem c3_status_reply_texts_witness :
    statusCallback noParse noStatus "t" RedisGetOutcome.err
      = ⟨[⟨"t", "Server is offline. Code: redis_fail_get"⟩], false⟩ :=
  (c3_status_reply_texts noParse noStatus "t" "x").1

/-- C5 (divergence witness): a stored string that the URL constructor rejects
makes the store callback throw an uncaught exception: the handler crashes and
no reply at all is produced for the event. -/
theorem c5_unparseable_value_crashes :
    statusCallback noParse noStatus "tok1"
        (RedisGetOutcome.ok (RedisValue.str "not a url")) = ⟨[], true⟩
    ∧ handleEventSingle noParse noStatus
        (RedisGetOutcome.ok (RedisValue.str "not a url")) statusEvent
      = ⟨none, [], true⟩ :=
  ⟨rfl, rfl⟩

/-- C10: a message event whose message is not a text message produces no reply
operation, no side reply and no crash — exactly like a non-message event — so
replies only ever arise from text messages. -/
theorem c10_replies_only_from_text (parse : String → Option URLParts)
    (mc : URLParts → Option StatusResponse) (rg : RedisGetOutcome) :
    (∀ tok, handleEventSingle parse mc rg
        (WebhookEvent.message ⟨LineMessage.nonText, tok⟩) = ⟨none, [], false⟩)
    ∧ handleEventSingle parse mc rg WebhookEvent.other = ⟨none, [], false⟩
    ∧ ∀ e, isTextMessageEvent e = false →
        handleEventSingle parse mc rg e = ⟨none, [], false⟩ := by
  refine ⟨fun tok => rfl, rfl, ?_⟩
  intro e he
  cases e with
  | other => rfl
  | message m =>
    cases m with
    | mk msg tok =>
      cases msg with
      | text t => simp [isTextMessageEvent] at he
      | nonText => rfl

/-- Witness for C10: a concrete sticker-like (non-text) message event yields
no reply operation. -/
theorem c10_replies_only_from_text_witness :
    handleEventSingle noParse noStatus RedisGetOutcome.err
      (WebhookEvent.message ⟨LineMessage.nonText, "t9"⟩) = ⟨none, [], false⟩ :=
  (c10_replies_only_from_text noParse noStatus RedisGetOutcome.err).2.2
    (WebhookEvent.message ⟨LineMessage.nonText, "t9"⟩) rfl

/-- The fields of a registration request the handler reads: the
`authorization` header and the `serverURL` body field (`none` when absent). -/
structure RegRequest where
  authHeader : Option String
  serverURL : Option String
deriving DecidableEq

/-- The body the handler sends: plain text (`res.send`) or the
express-validator error list (`res.json(errors)`). -/
inductive RespBody
  | text (s : String)
  | errorsJson (errors : List String)
deriving DecidableEq

/-- The HTTP response: the status code actually in effect when the body is
sent (express defaults to 200 when no `res.status` call was made) and the
body. -/
structure HttpResponse where
  statusCode : Nat
  body : RespBody
deriving DecidableEq

/-- The validation message of src/unnamed/part_000 line 139. -/
def validationMsg : String := "Please provide a valid Minecraft server URL"

/-- The `check("serverURL", ...).not().isEmpty().isURL({...})` chain
(src/unnamed/part_000 lines 139-145): express-validator reads a missing field
as the empty string and records one error, with the chain's message, per
failing validator. `isURL` stands for validator.js `isURL` with protocol tcp
and host and port required. -/
def checkServerURL (isURL : String → Bool) (field : Option String) : List String :=
  (if (field.getD "") = "" then [validationMsg] else [])
  ++ (if isURL (field.getD "") then [] else [validationMsg])

/-- The `POST /serverURL` pipeline of src/unnamed/part_000: `authMiddleware`
(lines 123-135), the validation middleware (lines 147-155), then the route
handler (lines 158-168). Returns the response and the resulting store value.
`authKey` is `process.env.AUTH_KEY`. On validation failure the middleware
calls `res.json(errors)` without setting a status, so the response goes out
with the default 200. On a store-write failure (`writeOk = false`) the handler
calls `res.header(500)` — express `res.set` with a single non-object argument,
which sets no header and no status — and then `res.send("Server Error")`, so
that response also goes out with status 200; the store keeps its old value.
On success the store holds the submitted value and the redis acknowledgement
`writeAck` is sent. -/
def registrationHandler (authKey : Option String) (isURL : String → Bool)
    (writeOk : Bool) (writeAck : String) (req : RegRequest)
    (store : Option String) : HttpResponse × Option String :=
  match req.authHeader with
  | none => (⟨400, RespBody.text "Undefined auth header"⟩, store)
  | some h =>
    if authKey ≠ some h then (⟨400, RespBody.text "Invalid auth header"⟩, store)
    else if checkServerURL isURL req.serverURL ≠ [] then
      (⟨200, RespBody.errorsJson (checkServerURL isURL req.serverURL)⟩, store)
    else if writeOk then (⟨200, RespBody.text writeAck⟩, req.serverURL)
    else (⟨200, RespBody.text "Server Error"⟩, store)

/-- C7 counterexample: an authenticated request with an empty (hence invalid)
address is answered with the validation-error list but with HTTP status 200 —
not a 400-class status. -/
theorem c7_counterexample :
    (registrationHandler (some "k") (fun _ => false) true "OK"
        ⟨some "k", some ""⟩ none).fst.statusCode = 200
    ∧ ¬ (400 ≤ (registrationHandler (some "k") (fun _ => false) true "OK"
          ⟨some "k", some ""⟩ none).fst.statusCode
        ∧ (registrationHandler (some "k") (fun _ => false) true "OK"
          ⟨some "k", some ""⟩ none).fst.statusCode ≤ 499) := by
  decide

/-- C7 amended: on an authenticated request whose address fails validation
(empty or not a well-formed URL with host and port), the handler responds with
the validation-error list enumerating the violated rules and does not write to
the store, but the response carries the default status 200 — no 400-class
status is set. -/
theorem c7_validation_failure (authKey : Option String) (isURL : String → Bool)
    (writeOk : Bool) (writeAck : String) (req : RegRequest)
    (store : Option String) (a : String)
    (hAuth : req.authHeader = some a) (hKey : authKey = some a)
    (hVal : checkServerURL isURL req.serverURL ≠ []) :
    registrationHandler authKey isURL writeOk writeAck req store
      = (⟨200, RespBody.errorsJson (checkServerURL isURL req.serverURL)⟩, store) := by
  simp [registrationHandler, hAuth, hKey, hVal]

/-- Witness for C7 amended: the concrete empty address is rejected with two
validation errors, status 200, and the store (empty) is untouched. -/
theorem c7_validation_failure_witness :
    registrationHandler (some "k") (fun _ => false) true "OK" ⟨some "k", some ""⟩ none
      = (⟨200, RespBody.errorsJson (checkServerURL (fun _ => false) (some ""))⟩, none) :=
  c7_validation_failure (some "k") (fun _ => false) true "OK"
    ⟨some "k", some ""⟩ none "k" rfl rfl (by decide)

/-- C8: a registration request whose authorization header is missing or does
not equal the pre-shared secret is rejected with status 400 and the store
value is left unchanged. -/
theorem c8_auth_failure (authKey : Option String) (isURL : String → Bool)
    (writeOk : Bool) (writeAck : String) (req : RegRequest)
    (store : Option String)
    (h : ∀ a, req.authHeader = some a → authKey ≠ some a) :
    (registrationHandler authKey isURL writeOk writeAck req store).fst.statusCode = 400
    ∧ (registrationHandler authKey isURL writeOk writeAck req store).snd = store := by
  rcases hh : req.authHeader with _ | a
  · simp [registrationHandler, hh]
  · have := h a hh
    simp [registrationHandler, hh, this]

/-- Witness for C8: a concrete request with a wrong secret gets status 400 and
the stored value "old" survives. -/
theorem c8_auth_failure_witness :
    (registrationHandler (some "k") (fun _ => true) true "OK"
        ⟨some "wrong", some "tcp://h:25565"⟩ (some "old")).fst.statusCode = 400
    ∧ (registrationHandler (some "k") (fun _ => true) true "OK"
        ⟨some "wrong", some "tcp://h:25565"⟩ (some "old")).snd = some "old" :=
  c8_auth_failure (some "k") (fun _ => true) true "OK"
    ⟨some "wrong", some "tcp://h:25565"⟩ (some "old") (by decide)

/-- C9 (divergence witness): an authenticated, validated request whose store
write fails is answered with body "Server Error" but HTTP status 200, because
`res.header(500)` sets no status — not a 500-class response. -/
theorem c9_write_failure_responds_200 :
    registrationHandler (some "k") (fun _ => true) false "OK"
        ⟨some "k", some "tcp://h:25565"⟩ (some "old")
      = (⟨200, RespBody.text "Server Error"⟩, some "old") := by
  decide

end MaidChan
